import Mathlib

/-!
# The news form's submit handler (`script.js`)

The repository is one script: it registers a listener for the `submit` event of
the form `newsForm`. The listener cancels the event's default action, reads the
value of the element `newsInput`, draws `Math.random()`, and assigns a piece of
markup naming one of two labels to the `innerHTML` of the element `result`.

The embedding follows the listener statement by statement.

* The page is a tree. An element carries its tag, its `id` and its `value`
  property (`none` stands for `undefined`) and has children; `getElementById`
  is the first element in tree order with the given id and `none` stands for
  the `null` it returns when there is none.
* Assigning to `innerHTML` parses the markup and puts the parsed nodes in the
  place of the element's children: what the element held before, elements with
  ids included, leaves the page, and every ancestor sees its content change.
  Reading `innerHTML` gives the markup of the children.
* The event carries the canceled flag that `defaultPrevented` reads.
* The number `Math.random()` returns is a parameter `random`. Every finite
  double is a rational number and `>` on doubles is the order of those
  rationals, so the draw is a rational in `[0, 1)`.
* Reading a property of `null`, or assigning to one, throws a `TypeError`. The
  listener has no `try`, so the throw is how the listener completes.
* The world also holds what a script could log, store or send, so that the
  listener leaving them alone can be stated.
-/

namespace NewsForm

/-- What an element carries besides its content: its tag name, its `id`
attribute (`none` when it has none) and its `value` property (`none` stands for
`undefined`). -/
structure Attrs where
  tag : String
  id : Option String
  value : Option String
  deriving DecidableEq, Repr

/-- A run of sibling nodes in tree order: nothing, a text node followed by its
later siblings, or an element with its children followed by its later
siblings. -/
inductive Nodes where
  | nil
  | text (data : String) (rest : Nodes)
  | element (attrs : Attrs) (children : Nodes) (rest : Nodes)
  deriving DecidableEq, Repr

/-- An element as a script holds it: what it carries and its children. -/
structure Element where
  attrs : Attrs
  children : Nodes
  deriving DecidableEq, Repr

/-- The page: the nodes of the document in tree order. -/
abbrev Document := Nodes

/-- The event passed to the listener; `defaultPrevented` is its canceled flag. -/
structure Event where
  defaultPrevented : Bool
  deriving DecidableEq, Repr

/-- Everything the listener could act on: the page, the console, the storage
area and the requests sent so far. -/
structure World where
  document : Document
  console : List String
  storage : List (String × String)
  network : List String
  deriving DecidableEq, Repr

/-- The errors the listener can throw. -/
inductive JsError where
  | typeError
  deriving DecidableEq, Repr

/-- How a run of the listener ends: it returns, or an error leaves it uncaught. -/
inductive Completion where
  | normal
  | throw (error : JsError)
  deriving DecidableEq, Repr

/-- The state a run of the listener leaves behind, and how the run ended. -/
structure Outcome where
  event : Event
  world : World
  completion : Completion
  deriving DecidableEq, Repr

/-- The call `document.getElementById(id)`: the first element in tree order
whose `id` is the given one, `none` standing for `null`. -/
def getElementById : Document → String → Option Element
  | .nil, _ => none
  | .text _ rest, id => getElementById rest id
  | .element attrs children rest, id =>
    if attrs.id = some id then some ⟨attrs, children⟩
    else
      match getElementById children id with
      | some e => some e
      | none => getElementById rest id

/-- The page after the children of the first element with the given id have
been replaced by `content`; the old children leave the page. -/
def replaceChildren : Document → String → Nodes → Document
  | .nil, _, _ => .nil
  | .text data rest, id, content => .text data (replaceChildren rest id content)
  | .element attrs children rest, id, content =>
    if attrs.id = some id then .element attrs content rest
    else
      match getElementById children id with
      | some _ => .element attrs (replaceChildren children id content) rest
      | none => .element attrs children (replaceChildren rest id content)

/-- Whether two pages are the same outside the content of the first element
with the given id: the same nodes in the same places, carrying the same, and
only the children of that one element free to differ. -/
def sameOutside : Document → Document → String → Bool
  | .nil, .nil, _ => true
  | .text data rest, .text data2 rest2, id => data == data2 && sameOutside rest rest2 id
  | .element attrs children rest, .element attrs2 children2 rest2, id =>
    attrs == attrs2 &&
      (if attrs.id = some id then rest == rest2
      else
        match getElementById children id with
        | some _ => sameOutside children children2 id && rest == rest2
        | none => children == children2 && sameOutside rest rest2 id)
  | _, _, _ => false

/-- Siblings `later` put after siblings `earlier`. -/
def Nodes.append : Nodes → Nodes → Nodes
  | .nil, later => later
  | .text data rest, later => .text data (rest.append later)
  | .element attrs children rest, later => .element attrs children (rest.append later)

/-- The pieces the markup of a fragment falls into. -/
inductive Token where
  | startTag (name : String)
  | endTag (name : String)
  | characters (data : String)
  deriving DecidableEq, Repr

/-- The token of a tag with the given characters between `<` and `>`. -/
def tagToken : List Char → Token
  | '/' :: name => .endTag ⟨name⟩
  | name => .startTag ⟨name⟩

/-- The text gathered so far (last character first) as a token, if any. -/
def textToken (gathered : List Char) : List Token :=
  if gathered.isEmpty then [] else [.characters ⟨gathered.reverse⟩]

/-- The tokens of a fragment of markup made of tags without attributes and of
text without character references. The flag says whether the scan is inside a
tag, `gathered` holds the characters of the current piece, last first. -/
def tokenize : List Char → Bool → List Char → List Token
  | [], false, gathered => textToken gathered
  | [], true, _ => []
  | c :: cs, false, gathered =>
    if c = '<' then textToken gathered ++ tokenize cs true []
    else tokenize cs false (c :: gathered)
  | c :: cs, true, gathered =>
    if c = '>' then tagToken gathered.reverse :: tokenize cs false []
    else tokenize cs true (c :: gathered)

/-- The element a start tag of that name opens, closed with those children. -/
def closed (name : String) (children : Nodes) : Nodes :=
  .element ⟨name, none, none⟩ children .nil

/-- The nodes the tokens build. `stack` holds the open elements, innermost
first, each with the siblings built before it; `current` holds the children
built so far for the innermost open element. -/
def build : List Token → List (String × Nodes) → Nodes → Nodes
  | [], stack, current =>
    stack.foldl (fun inner entry => entry.2.append (closed entry.1 inner)) current
  | .startTag name :: ts, stack, current => build ts ((name, current) :: stack) .nil
  | .endTag _ :: ts, [], current => build ts [] current
  | .endTag _ :: ts, entry :: stack, current =>
    build ts stack (entry.2.append (closed entry.1 current))
  | .characters data :: ts, stack, current =>
    build ts stack (current.append (.text data .nil))

/-- The nodes the HTML parser makes of a fragment of markup. -/
def parseHTML (html : String) : Nodes :=
  build (tokenize html.data false []) [] .nil

/-- The markup of a run of nodes: text as it is, an element as its start tag,
the markup of its children and its end tag. Attributes are not written out; the
nodes line 8 puts on the page have none. -/
def serialize : Nodes → String
  | .nil => ""
  | .text data rest => data ++ serialize rest
  | .element attrs children rest =>
    "<" ++ attrs.tag ++ ">" ++ serialize children ++ "</" ++ attrs.tag ++ ">" ++ serialize rest

/-- The property `value` read. -/
def Element.value (e : Element) : Option String :=
  e.attrs.value

/-- The property `innerHTML` read: the markup of the element's children. -/
def Element.innerHTML (e : Element) : String :=
  serialize e.children

/-- The assignment `document.getElementById(id).innerHTML = html` on a page that
has such an element: the nodes parsed from `html` replace its children. -/
def setInnerHTML (document : Document) (id html : String) : Document :=
  replaceChildren document id (parseHTML html)

/-- The call `event.preventDefault()`. The `submit` event a form submission
fires is cancelable and the listener is not passive, so the call sets the
canceled flag. -/
def preventDefault (event : Event) : Event :=
  { event with defaultPrevented := true }

/-- Line 7: `Math.random() > 0.5 ? "Fake News" : "Real News"`. -/
def isFake (random : ℚ) : String :=
  if random > 0.5 then "Fake News" else "Real News"

/-- Line 8, the template literal with `isFake` spliced in. -/
def template (isFake : String) : String :=
  "<p>The news is likely: <strong>" ++ isFake ++ "</strong></p>"

/-- The listener of lines 1 to 9, run on `event` in `world` with `random` the
number `Math.random()` returns. -/
def handler (event : Event) (world : World) (random : ℚ) : Outcome :=
  let event := preventDefault event
  match getElementById world.document "newsInput" with
  | none => ⟨event, world, .throw .typeError⟩
  | some newsInput =>
    let _inputText := newsInput.value
    let resultDiv := getElementById world.document "result"
    let isFake := isFake random
    match resultDiv with
    | none => ⟨event, world, .throw .typeError⟩
    | some _ =>
      ⟨event,
        { world with
          document := setInnerHTML world.document "result" (template isFake) },
        .normal⟩

/-- One submission: the browser dispatches a fresh `submit` event to the
listener; what the listener throws stays uncaught and the page lives on. -/
def submit (world : World) (random : ℚ) : World :=
  (handler ⟨false⟩ world random).world

/-- A sequence of submissions, one draw each, in order. -/
def submissions (world : World) (draws : List ℚ) : World :=
  draws.foldl submit world

/-- The characters of a fragment of markup that lie outside its tags; the flag
says whether the scan is inside a tag. A tag runs from `<` to the next `>`. -/
def textOutsideTags : Bool → List Char → List Char
  | _, [] => []
  | false, c :: cs =>
    if c = '<' then textOutsideTags true cs else c :: textOutsideTags false cs
  | true, c :: cs =>
    if c = '>' then textOutsideTags false cs else textOutsideTags true cs

/-- The text an element with this markup displays (its `textContent`), for
markup made of tags and plain text, without character references or comments. -/
def textContent (html : String) : String :=
  ⟨textOutsideTags false html.data⟩

/-- The draw number `k` of a generator that returns the `2 ^ bits` equally
spaced doubles `k / 2 ^ bits` of `[0, 1)`; the engines in use take 52 or 53
bits. -/
def drawOf (bits k : ℕ) : ℚ :=
  (k : ℚ) / 2 ^ bits

/-- The draws of such a generator that give the label `label`, by number. -/
def drawsGiving (bits : ℕ) (label : String) : Finset ℕ :=
  (Finset.range (2 ^ bits)).filter (fun k => isFake (drawOf bits k) = label)

/-- The probability of the label `label` when each of the `2 ^ bits` draws is
equally likely. -/
def probability (bits : ℕ) (label : String) : ℚ :=
  ((drawsGiving bits label).card : ℚ) / 2 ^ bits

/-- A page as the script expects it: the form with the text field holding
`text`, and beside it the result element holding the text `shown`. -/
def samplePage (text shown : String) : World :=
  ⟨.element ⟨"div", some "app", none⟩
      (.element ⟨"form", some "newsForm", none⟩
        (.element ⟨"input", some "newsInput", some text⟩ .nil
          (.element ⟨"button", none, none⟩ (.text "Check" .nil) .nil))
        (.element ⟨"div", some "result", none⟩ (.text shown .nil) .nil))
      (.element ⟨"p", some "footer", none⟩ (.text "demo" .nil) .nil), [], [], []⟩

/-- A page with the text field in a form, the result element beside it inside a
wrapper that has an id, and further down a second element with the id
`result`. -/
def crowdedPage (text : String) : World :=
  ⟨.element ⟨"div", some "app", none⟩
      (.element ⟨"form", some "newsForm", none⟩
        (.element ⟨"input", some "newsInput", some text⟩ .nil .nil)
        (.element ⟨"div", some "result", none⟩ (.text "one" .nil) .nil))
      (.element ⟨"div", some "result", none⟩ (.text "two" .nil) .nil), [], [], []⟩

/-- A page whose text field, holding `text`, lies inside the result element. -/
def nestedPage (text : String) : World :=
  ⟨.element ⟨"form", some "newsForm", none⟩
      (.element ⟨"div", some "result", none⟩
        (.element ⟨"input", some "newsInput", some text⟩ .nil .nil) .nil)
      .nil, [], [], []⟩

/-! ## Lookup and replacement on the page -/

theorem half_eq : (0.5 : ℚ) = 1 / 2 := by norm_num

theorem getElementById_element_self (attrs : Attrs) (children rest : Nodes) (id : String)
    (h : attrs.id = some id) :
    getElementById (.element attrs children rest) id = some ⟨attrs, children⟩ := by
  simp [getElementById, h]

theorem getElementById_element_child (attrs : Attrs) (children rest : Nodes) (id : String)
    (e : Element) (h : attrs.id ≠ some id) (hc : getElementById children id = some e) :
    getElementById (.element attrs children rest) id = some e := by
  simp [getElementById, h, hc]

theorem getElementById_element_rest (attrs : Attrs) (children rest : Nodes) (id : String)
    (h : attrs.id ≠ some id) (hc : getElementById children id = none) :
    getElementById (.element attrs children rest) id = getElementById rest id := by
  simp [getElementById, h, hc]

theorem replaceChildren_element_self (attrs : Attrs) (children rest : Nodes) (id : String)
    (content : Nodes) (h : attrs.id = some id) :
    replaceChildren (.element attrs children rest) id content = .element attrs content rest := by
  simp [replaceChildren, h]

theorem replaceChildren_element_child (attrs : Attrs) (children rest : Nodes) (id : String)
    (content : Nodes) (e : Element) (h : attrs.id ≠ some id)
    (hc : getElementById children id = some e) :
    replaceChildren (.element attrs children rest) id content
      = .element attrs (replaceChildren children id content) rest := by
  simp [replaceChildren, h, hc]

theorem replaceChildren_element_rest (attrs : Attrs) (children rest : Nodes) (id : String)
    (content : Nodes) (h : attrs.id ≠ some id) (hc : getElementById children id = none) :
    replaceChildren (.element attrs children rest) id content
      = .element attrs children (replaceChildren rest id content) := by
  simp [replaceChildren, h, hc]

theorem getElementById_replaceChildren_self (document : Document) (id : String)
    (content : Nodes) :
    getElementById (replaceChildren document id content) id
      = (getElementById document id).map (fun e => { e with children := content }) := by
  induction document with
  | nil => rfl
  | text data rest ih => simpa [getElementById, replaceChildren] using ih
  | element attrs children rest ihc ihr =>
    by_cases h : attrs.id = some id
    · rw [replaceChildren_element_self _ _ _ _ _ h, getElementById_element_self _ _ _ _ h,
        getElementById_element_self _ _ _ _ h]
      rfl
    · cases hc : getElementById children id with
      | some e =>
        rw [replaceChildren_element_child _ _ _ _ _ e h hc,
          getElementById_element_child _ _ _ _ e h hc,
          getElementById_element_child _ _ _ _ _ h (by rw [ihc, hc]; rfl)]
        rfl
      | none =>
        rw [replaceChildren_element_rest _ _ _ _ _ h hc,
          getElementById_element_rest _ _ _ _ h hc,
          getElementById_element_rest _ _ _ _ h hc, ihr]

theorem replaceChildren_replaceChildren (document : Document) (id : String)
    (first second : Nodes) :
    replaceChildren (replaceChildren document id first) id second
      = replaceChildren document id second := by
  induction document with
  | nil => rfl
  | text data rest ih => simp [replaceChildren, ih]
  | element attrs children rest ihc ihr =>
    by_cases h : attrs.id = some id
    · rw [replaceChildren_element_self _ _ _ _ _ h, replaceChildren_element_self _ _ _ _ _ h,
        replaceChildren_element_self _ _ _ _ _ h]
    · cases hc : getElementById children id with
      | some e =>
        rw [replaceChildren_element_child _ _ _ _ _ e h hc,
          replaceChildren_element_child _ _ _ _ _ e h hc,
          replaceChildren_element_child _ _ _ _ _ _ h
            (by rw [getElementById_replaceChildren_self, hc]; rfl), ihc]
      | none =>
        rw [replaceChildren_element_rest _ _ _ _ _ h hc,
          replaceChildren_element_rest _ _ _ _ _ h hc,
          replaceChildren_element_rest _ _ _ _ _ h hc, ihr]

theorem sameOutside_self (document : Document) (id : String) :
    sameOutside document document id = true := by
  induction document with
  | nil => rfl
  | text data rest ih => simp [sameOutside, ih]
  | element attrs children rest ihc ihr =>
    by_cases h : attrs.id = some id
    · simp [sameOutside, h]
    · cases hc : getElementById children id with
      | some e => simp [sameOutside, h, hc, ihc]
      | none => simp [sameOutside, h, hc, ihr]

theorem sameOutside_replaceChildren (document : Document) (id : String) (content : Nodes) :
    sameOutside document (replaceChildren document id content) id = true := by
  induction document with
  | nil => rfl
  | text data rest ih => simp [sameOutside, replaceChildren, ih]
  | element attrs children rest ihc ihr =>
    by_cases h : attrs.id = some id
    · rw [replaceChildren_element_self _ _ _ _ _ h]
      simp [sameOutside, h]
    · cases hc : getElementById children id with
      | some e =>
        rw [replaceChildren_element_child _ _ _ _ _ e h hc]
        simp [sameOutside, h, hc, ihc]
      | none =>
        rw [replaceChildren_element_rest _ _ _ _ _ h hc]
        simp [sameOutside, h, hc, ihr]

/-- Replacing the children of the element `id`, when neither the old nor the new
children hold an element `other`, leaves the element `other` the page has where
it was, with what it carried. -/
theorem getElementById_replaceChildren_other (document : Document) (id other : String)
    (content : Nodes) (hne : other ≠ id)
    (hnew : getElementById content other = none)
    (hold : ∀ e, getElementById document id = some e → getElementById e.children other = none) :
    (getElementById (replaceChildren document id content) other).map Element.attrs
      = (getElementById document other).map Element.attrs := by
  induction document with
  | nil => rfl
  | text data rest ih =>
    have hold2 : ∀ e, getElementById rest id = some e → getElementById e.children other = none :=
      fun e he => hold e (by simpa [getElementById] using he)
    simpa [getElementById, replaceChildren] using ih hold2
  | element attrs children rest ihc ihr =>
    by_cases h : attrs.id = some id
    · have ho : attrs.id ≠ some other := by
        rw [h]
        intro c
        exact hne (Option.some.inj c).symm
      have hch : getElementById children other = none :=
        hold ⟨attrs, children⟩ (getElementById_element_self _ _ _ _ h)
      rw [replaceChildren_element_self _ _ _ _ _ h,
        getElementById_element_rest _ _ _ _ ho hnew,
        getElementById_element_rest _ _ _ _ ho hch]
    · cases hc : getElementById children id with
      | some e =>
        rw [replaceChildren_element_child _ _ _ _ _ e h hc]
        have hold2 : ∀ e, getElementById children id = some e →
            getElementById e.children other = none :=
          fun e2 he => hold e2 (getElementById_element_child _ _ _ _ e2 h he)
        have ih := ihc hold2
        by_cases ho : attrs.id = some other
        · rw [getElementById_element_self _ _ _ _ ho, getElementById_element_self _ _ _ _ ho]
          rfl
        · cases h1 : getElementById (replaceChildren children id content) other with
          | some a =>
            cases h2 : getElementById children other with
            | some b =>
              rw [getElementById_element_child _ _ _ _ a ho h1,
                getElementById_element_child _ _ _ _ b ho h2]
              rw [h1, h2] at ih
              exact ih
            | none =>
              rw [h1, h2] at ih
              exact absurd ih (by simp)
          | none =>
            cases h2 : getElementById children other with
            | some b =>
              rw [h1, h2] at ih
              exact absurd ih (by simp)
            | none =>
              rw [getElementById_element_rest _ _ _ _ ho h1,
                getElementById_element_rest _ _ _ _ ho h2]
      | none =>
        rw [replaceChildren_element_rest _ _ _ _ _ h hc]
        have hold2 : ∀ e, getElementById rest id = some e →
            getElementById e.children other = none :=
          fun e2 he => hold e2 (by rw [getElementById_element_rest _ _ _ _ h hc]; exact he)
        have ih := ihr hold2
        by_cases ho : attrs.id = some other
        · rw [getElementById_element_self _ _ _ _ ho, getElementById_element_self _ _ _ _ ho]
        · cases h2 : getElementById children other with
          | some b =>
            rw [getElementById_element_child _ _ _ _ b ho h2,
              getElementById_element_child _ _ _ _ b ho h2]
          | none =>
            rw [getElementById_element_rest _ _ _ _ ho h2,
              getElementById_element_rest _ _ _ _ ho h2]
            exact ih

/-! ## The listener, case by case -/

theorem handler_of_elements (event : Event) (world : World) (random : ℚ)
    (newsInput resultDiv : Element)
    (hin : getElementById world.document "newsInput" = some newsInput)
    (hres : getElementById world.document "result" = some resultDiv) :
    handler event world random
      = ⟨preventDefault event,
          { world with
            document := setInnerHTML world.document "result" (template (isFake random)) },
          .normal⟩ := by
  simp [handler, hin, hres]

theorem handler_of_no_input (event : Event) (world : World) (random : ℚ)
    (hin : getElementById world.document "newsInput" = none) :
    handler event world random = ⟨preventDefault event, world, .throw .typeError⟩ := by
  simp [handler, hin]

theorem handler_of_no_result (event : Event) (world : World) (random : ℚ)
    (hres : getElementById world.document "result" = none) :
    handler event world random = ⟨preventDefault event, world, .throw .typeError⟩ := by
  unfold handler
  cases hin : getElementById world.document "newsInput" with
  | none => rfl
  | some newsInput => simp [hres]

theorem result_after_handler (event : Event) (world : World) (random : ℚ)
    (newsInput resultDiv : Element)
    (hin : getElementById world.document "newsInput" = some newsInput)
    (hres : getElementById world.document "result" = some resultDiv) :
    getElementById (handler event world random).world.document "result"
      = some { resultDiv with children := parseHTML (template (isFake random)) } := by
  rw [handler_of_elements event world random newsInput resultDiv hin hres]
  simp [setInnerHTML, getElementById_replaceChildren_self, hres]

theorem handler_event (event : Event) (world : World) (random : ℚ) :
    (handler event world random).event = preventDefault event := by
  cases hin : getElementById world.document "newsInput" with
  | none => rw [handler_of_no_input event world random hin]
  | some newsInput =>
    cases hres : getElementById world.document "result" with
    | none => rw [handler_of_no_result event world random hres]
    | some resultDiv => rw [handler_of_elements event world random newsInput resultDiv hin hres]

theorem handler_world_cases (event : Event) (world : World) (random : ℚ) :
    (handler event world random).world = world ∨
    (handler event world random).world
      = { world with
          document := setInnerHTML world.document "result" (template (isFake random)) } := by
  cases hin : getElementById world.document "newsInput" with
  | none => rw [handler_of_no_input event world random hin]; exact Or.inl rfl
  | some newsInput =>
    cases hres : getElementById world.document "result" with
    | none => rw [handler_of_no_result event world random hres]; exact Or.inl rfl
    | some resultDiv =>
      rw [handler_of_elements event world random newsInput resultDiv hin hres]
      exact Or.inr rfl

theorem isFake_cases (random : ℚ) :
    isFake random = "Fake News" ∨ isFake random = "Real News" := by
  unfold isFake
  split
  · exact Or.inl rfl
  · exact Or.inr rfl

theorem isFake_gt (random : ℚ) (h : random > 1 / 2) : isFake random = "Fake News" := by
  unfold isFake
  rw [half_eq, if_pos h]

theorem isFake_le (random : ℚ) (h : ¬ random > 1 / 2) : isFake random = "Real News" := by
  unfold isFake
  rw [half_eq, if_neg h]

theorem textContent_template (label : String)
    (h : label = "Fake News" ∨ label = "Real News") :
    textContent (template label) = "The news is likely: " ++ label := by
  rcases h with h | h <;> subst h <;> decide

theorem template_ne_text (label : String)
    (h : label = "Fake News" ∨ label = "Real News") :
    template label ≠ "The news is likely: " ++ label := by
  rcases h with h | h <;> subst h <;> decide

/-- Reading `innerHTML` after one of the two messages was assigned gives the
message back. -/
theorem serialize_parseHTML_template (label : String)
    (h : label = "Fake News" ∨ label = "Real News") :
    serialize (parseHTML (template label)) = template label := by
  rcases h with h | h <;> subst h <;> decide

/-- Neither message brings an element with the id `newsInput` to the page. -/
theorem parseHTML_template_no_input (label : String)
    (h : label = "Fake News" ∨ label = "Real News") :
    getElementById (parseHTML (template label)) "newsInput" = none := by
  rcases h with h | h <;> subst h <;> decide

/-- A run on a page whose result element holds no text input: the listener
returns, a text input is still there, and the result element holds the
message. -/
theorem handler_step (event : Event) (world : World) (random : ℚ) (resultDiv : Element)
    (hin : (getElementById world.document "newsInput").isSome = true)
    (hres : getElementById world.document "result" = some resultDiv)
    (hout : getElementById resultDiv.children "newsInput" = none) :
    (handler event world random).world
        = { world with
            document := setInnerHTML world.document "result" (template (isFake random)) } ∧
    (getElementById (handler event world random).world.document "newsInput").map Element.attrs
        = (getElementById world.document "newsInput").map Element.attrs ∧
    getElementById (handler event world random).world.document "result"
        = some { resultDiv with children := parseHTML (template (isFake random)) } := by
  obtain ⟨newsInput, hin2⟩ := Option.isSome_iff_exists.1 hin
  refine ⟨?_, ?_, result_after_handler event world random newsInput resultDiv hin2 hres⟩
  · rw [handler_of_elements event world random newsInput resultDiv hin2 hres]
  · rw [handler_of_elements event world random newsInput resultDiv hin2 hres]
    refine getElementById_replaceChildren_other world.document "result" "newsInput" _
      (by decide) (parseHTML_template_no_input _ (isFake_cases random)) ?_
    intro e he
    rw [hres] at he
    rw [← Option.some.inj he]
    exact hout

/-! ## Counting the draws of a generator with equally spaced values -/

theorem drawOf_gt_half (n k : ℕ) : drawOf (n + 1) k > 1 / 2 ↔ 2 ^ n < k := by
  unfold drawOf
  rw [gt_iff_lt, div_lt_div_iff₀ (by norm_num) (by positivity)]
  have hp : ((2 : ℚ) ^ (n + 1)) = (((2 ^ n * 2 : ℕ)) : ℚ) := by
    push_cast
    ring
  have hk : (k : ℚ) * 2 = ((k * 2 : ℕ) : ℚ) := by
    push_cast
    ring
  rw [one_mul, hp, hk, Nat.cast_lt]
  omega

theorem isFake_drawOf_fake (n k : ℕ) :
    isFake (drawOf (n + 1) k) = "Fake News" ↔ 2 ^ n < k := by
  by_cases h : drawOf (n + 1) k > 1 / 2
  · exact ⟨fun _ => (drawOf_gt_half n k).1 h, fun _ => isFake_gt _ h⟩
  · exact ⟨fun c => absurd (c.symm.trans (isFake_le _ h)) (by decide),
      fun c => absurd ((drawOf_gt_half n k).2 c) h⟩

theorem isFake_drawOf_real (n k : ℕ) :
    isFake (drawOf (n + 1) k) = "Real News" ↔ k ≤ 2 ^ n := by
  by_cases h : drawOf (n + 1) k > 1 / 2
  · exact ⟨fun c => absurd ((isFake_gt _ h).symm.trans c) (by decide),
      fun c => absurd ((drawOf_gt_half n k).1 h) (not_lt.2 c)⟩
  · exact ⟨fun _ => not_lt.1 (fun c => h ((drawOf_gt_half n k).2 c)),
      fun _ => isFake_le _ h⟩

theorem card_drawsGiving_fake (n : ℕ) :
    (drawsGiving (n + 1) "Fake News").card = 2 ^ n - 1 := by
  have hset : drawsGiving (n + 1) "Fake News" = Finset.Ioo (2 ^ n) (2 ^ (n + 1)) := by
    ext k
    simp only [drawsGiving, Finset.mem_filter, Finset.mem_range, Finset.mem_Ioo,
      isFake_drawOf_fake]
    exact And.comm
  rw [hset, Nat.card_Ioo, pow_succ]
  omega

theorem card_drawsGiving_real (n : ℕ) :
    (drawsGiving (n + 1) "Real News").card = 2 ^ n + 1 := by
  have hpos : 1 ≤ 2 ^ n := Nat.one_le_two_pow
  have hset : drawsGiving (n + 1) "Real News" = Finset.range (2 ^ n + 1) := by
    ext k
    simp only [drawsGiving, Finset.mem_filter, Finset.mem_range, isFake_drawOf_real, pow_succ]
    omega
  rw [hset, Finset.card_range]

theorem probability_fake (n : ℕ) :
    probability (n + 1) "Fake News" = 1 / 2 - 1 / 2 ^ (n + 1) := by
  have hpos : 1 ≤ 2 ^ n := Nat.one_le_two_pow
  have hq : (2 : ℚ) ^ n ≠ 0 := by positivity
  unfold probability
  rw [card_drawsGiving_fake, Nat.cast_sub hpos]
  push_cast
  rw [pow_succ]
  field_simp

theorem probability_real (n : ℕ) :
    probability (n + 1) "Real News" = 1 / 2 + 1 / 2 ^ (n + 1) := by
  have hq : (2 : ℚ) ^ n ≠ 0 := by positivity
  unfold probability
  rw [card_drawsGiving_real]
  push_cast
  rw [pow_succ]
  field_simp

/-! ## Sequences of submissions -/

theorem submissions_snoc (world : World) (draws : List ℚ) (random : ℚ) :
    submissions world (draws ++ [random]) = submit (submissions world draws) random := by
  simp [submissions, List.foldl_append]

theorem elements_after_submissions (draws : List ℚ) (world : World) (resultDiv : Element)
    (hin : (getElementById world.document "newsInput").isSome = true)
    (hres : getElementById world.document "result" = some resultDiv)
    (hout : getElementById resultDiv.children "newsInput" = none) :
    (getElementById (submissions world draws).document "newsInput").isSome = true ∧
    ∃ content, getElementById (submissions world draws).document "result"
        = some { resultDiv with children := content } ∧
      getElementById content "newsInput" = none := by
  induction draws generalizing world resultDiv with
  | nil => exact ⟨hin, resultDiv.children, hres, hout⟩
  | cons random rest ih =>
    obtain ⟨_, h2, h3⟩ := handler_step ⟨false⟩ world random resultDiv hin hres hout
    have hin2 : (getElementById (submit world random).document "newsInput").isSome = true := by
      unfold submit
      have h4 := congrArg Option.isSome h2
      simpa [hin] using h4
    obtain ⟨k1, content, k2, k3⟩ := ih (submit world random) _ hin2 h3
      (parseHTML_template_no_input _ (isFake_cases random))
    exact ⟨k1, content, k2, k3⟩

/-! ## The claims -/

/-- C1: whatever the text field holds (the empty string included), whatever the
result element held before and whatever the draw (in particular every draw of
`[0, 1)`), after the listener has run the result element displays the text
`The news is likely: ` followed by a label that is `Fake News` or `Real News`. -/
theorem result_text_after_submit (event : Event) (world : World) (random : ℚ)
    (newsInput resultDiv : Element)
    (hin : getElementById world.document "newsInput" = some newsInput)
    (hres : getElementById world.document "result" = some resultDiv) :
    ∃ shown label,
      getElementById (handler event world random).world.document "result" = some shown ∧
      textContent shown.innerHTML = "The news is likely: " ++ label ∧
      (label = "Fake News" ∨ label = "Real News") := by
  refine ⟨_, isFake random,
    result_after_handler event world random newsInput resultDiv hin hres, ?_,
    isFake_cases random⟩
  show textContent (serialize (parseHTML (template (isFake random)))) = _
  rw [serialize_parseHTML_template _ (isFake_cases random)]
  exact textContent_template _ (isFake_cases random)

/-- Witness for C1: the empty input, a result element that held other text, and
the draw `3/4`. -/
theorem result_text_after_submit_witness :
    ∃ shown label,
      getElementById (handler ⟨false⟩ (samplePage "" "old") (3 / 4)).world.document "result"
        = some shown ∧
      textContent shown.innerHTML = "The news is likely: " ++ label ∧
      (label = "Fake News" ∨ label = "Real News") :=
  result_text_after_submit ⟨false⟩ (samplePage "" "old") (3 / 4)
    ⟨⟨"input", some "newsInput", some ""⟩, .nil⟩
    ⟨⟨"div", some "result", none⟩, .text "old" .nil⟩ (by decide) (by decide)

/-- C2: when the input and result elements exist, the listener returns and the
event's default-prevented flag is set afterwards, whatever it was before,
whatever the text field holds and whatever the draw. -/
theorem default_prevented_after_submit (event : Event) (world : World) (random : ℚ)
    (newsInput resultDiv : Element)
    (hin : getElementById world.document "newsInput" = some newsInput)
    (hres : getElementById world.document "result" = some resultDiv) :
    (handler event world random).completion = .normal ∧
    (handler event world random).event.defaultPrevented = true := by
  rw [handler_of_elements event world random newsInput resultDiv hin hres]
  exact ⟨rfl, rfl⟩

/-- Witness for C2: the empty input and an event whose flag was clear. -/
theorem default_prevented_after_submit_witness :
    (handler ⟨false⟩ (samplePage "" "old") (1 / 4)).completion = .normal ∧
    (handler ⟨false⟩ (samplePage "" "old") (1 / 4)).event.defaultPrevented = true :=
  default_prevented_after_submit ⟨false⟩ (samplePage "" "old") (1 / 4)
    ⟨⟨"input", some "newsInput", some ""⟩, .nil⟩
    ⟨⟨"div", some "result", none⟩, .text "old" .nil⟩ (by decide) (by decide)

/-- C3, as stated, fails on a page whose text input lies inside the result
element. Both elements are there; the first submission, with the draw `3/4`,
writes its message over the text input, the second, with the draw `1/4`, throws
at the lookup of the input's value, and the result element is left showing the
`Fake News` of the first draw, not the `Real News` of the last. -/
theorem submissions_keep_first_message :
    getElementById (nestedPage "a").document "newsInput"
      = some ⟨⟨"input", some "newsInput", some "a"⟩, .nil⟩ ∧
    (getElementById (nestedPage "a").document "result").isSome = true ∧
    (handler ⟨false⟩ (submit (nestedPage "a") (3 / 4)) (1 / 4)).completion
      = .throw .typeError ∧
    isFake (1 / 4) = "Real News" ∧
    (getElementById (submissions (nestedPage "a") ([3 / 4] ++ [1 / 4])).document "result").map
        (fun shown => textContent shown.innerHTML)
      = some "The news is likely: Fake News" := by
  have h1 : submit (nestedPage "a") (3 / 4)
      = { nestedPage "a" with
          document := setInnerHTML (nestedPage "a").document "result" (template "Fake News") } := by
    unfold submit
    rw [handler_of_elements ⟨false⟩ (nestedPage "a") (3 / 4)
      ⟨⟨"input", some "newsInput", some "a"⟩, .nil⟩
      ⟨⟨"div", some "result", none⟩, .element ⟨"input", some "newsInput", some "a"⟩ .nil .nil⟩
      (by decide) (by decide), isFake_gt (3 / 4) (by norm_num)]
  have h2 : handler ⟨false⟩ (submit (nestedPage "a") (3 / 4)) (1 / 4)
      = ⟨preventDefault ⟨false⟩, submit (nestedPage "a") (3 / 4), .throw .typeError⟩ := by
    apply handler_of_no_input
    rw [h1]
    decide
  refine ⟨by decide, by decide, ?_, isFake_le (1 / 4) (by norm_num), ?_⟩
  · rw [h2]
  · have h3 : submissions (nestedPage "a") ([3 / 4] ++ [1 / 4])
        = submit (nestedPage "a") (3 / 4) := by
      rw [submissions_snoc]
      show (handler ⟨false⟩ (submit (nestedPage "a") (3 / 4)) (1 / 4)).world = _
      rw [h2]
    rw [h3, h1]
    decide

/-- C3, amended: submissions overwrite on a page that has both elements and
whose result element holds no text input. Replacing what the result element
held before a submission by any other content without a text input changes
nothing in the state the listener leaves, and after any non-empty sequence of
submissions the result element holds exactly the one message of the last
draw. -/
theorem submissions_overwrite (world : World) (newsInput resultDiv : Element)
    (hin : getElementById world.document "newsInput" = some newsInput)
    (hres : getElementById world.document "result" = some resultDiv)
    (hout : getElementById resultDiv.children "newsInput" = none) :
    (∀ (event : Event) (random : ℚ) (prior : Nodes),
      getElementById prior "newsInput" = none →
      (handler event
          { world with document := replaceChildren world.document "result" prior } random).world
        = (handler event world random).world) ∧
    (∀ (draws : List ℚ) (random : ℚ),
      ∃ shown,
        getElementById (submissions world (draws ++ [random])).document "result" = some shown ∧
        shown = { resultDiv with children := parseHTML (template (isFake random)) } ∧
        shown.innerHTML = "<p>The news is likely: <strong>" ++ isFake random ++ "</strong></p>" ∧
        textContent shown.innerHTML = "The news is likely: " ++ isFake random) := by
  have hin1 : (getElementById world.document "newsInput").isSome = true := by
    rw [hin]
    rfl
  constructor
  · intro event random prior hprior
    have hin2 : (getElementById (replaceChildren world.document "result" prior)
        "newsInput").isSome = true := by
      have h := getElementById_replaceChildren_other world.document "result" "newsInput" prior
        (by decide) hprior (by
          intro e he
          rw [hres] at he
          rw [← Option.some.inj he]
          exact hout)
      have h4 := congrArg Option.isSome h
      simpa [hin1] using h4
    have hres2 : getElementById (replaceChildren world.document "result" prior) "result"
        = some { resultDiv with children := prior } := by
      rw [getElementById_replaceChildren_self, hres]
      rfl
    obtain ⟨k1, _, _⟩ := handler_step event
      { world with document := replaceChildren world.document "result" prior } random _
      hin2 hres2 hprior
    obtain ⟨k2, _, _⟩ := handler_step event world random resultDiv hin1 hres hout
    rw [k1, k2]
    simp [setInnerHTML, replaceChildren_replaceChildren]
  · intro draws random
    obtain ⟨h1, content, h2, h3⟩ := elements_after_submissions draws world resultDiv hin1 hres hout
    obtain ⟨_, _, k3⟩ := handler_step ⟨false⟩ (submissions world draws) random _ h1 h2 h3
    refine ⟨_, by rw [submissions_snoc]; exact k3, rfl, ?_, ?_⟩
    · exact serialize_parseHTML_template _ (isFake_cases random)
    · show textContent (serialize (parseHTML (template (isFake random)))) = _
      rw [serialize_parseHTML_template _ (isFake_cases random)]
      exact textContent_template _ (isFake_cases random)

/-- Witness for C3, amended: an event run on two prior contents, and three
submissions on a page whose result element held other text. -/
theorem submissions_overwrite_witness :
    (handler ⟨true⟩
        { samplePage "a" "old" with
          document := replaceChildren (samplePage "a" "old").document "result"
            (.text "other" .nil) }
        (3 / 4)).world
      = (handler ⟨true⟩ (samplePage "a" "old") (3 / 4)).world ∧
    ∃ shown,
      getElementById
          (submissions (samplePage "a" "old") ([3 / 4, 1 / 4] ++ [3 / 4])).document "result"
        = some shown ∧
      shown = { (⟨⟨"div", some "result", none⟩, .text "old" .nil⟩ : Element) with
          children := parseHTML (template (isFake (3 / 4))) } ∧
      shown.innerHTML = "<p>The news is likely: <strong>" ++ isFake (3 / 4) ++ "</strong></p>" ∧
      textContent shown.innerHTML = "The news is likely: " ++ isFake (3 / 4) :=
  have h := submissions_overwrite (samplePage "a" "old")
    ⟨⟨"input", some "newsInput", some "a"⟩, .nil⟩
    ⟨⟨"div", some "result", none⟩, .text "old" .nil⟩ (by decide) (by decide) (by decide)
  ⟨h.1 ⟨true⟩ (3 / 4) (.text "other" .nil) (by decide), h.2 [3 / 4, 1 / 4] (3 / 4)⟩

/-- C4: the label has no relationship to the input text. Two pages whose text
fields hold any two values and whose result elements are in the same state, run
with the same draw, end with the result element in the same state, and that
state is the markup of the label the draw alone decides. -/
theorem result_independent_of_input (eventA eventB : Event) (worldA worldB : World)
    (random : ℚ) (inputA inputB resultDiv : Element)
    (hinA : getElementById worldA.document "newsInput" = some inputA)
    (hinB : getElementById worldB.document "newsInput" = some inputB)
    (hresA : getElementById worldA.document "result" = some resultDiv)
    (hresB : getElementById worldB.document "result" = some resultDiv) :
    getElementById (handler eventA worldA random).world.document "result"
      = getElementById (handler eventB worldB random).world.document "result" ∧
    getElementById (handler eventA worldA random).world.document "result"
      = some { resultDiv with children := parseHTML (template (isFake random)) } ∧
    (getElementById (handler eventA worldA random).world.document "result").map
        Element.innerHTML
      = some (template (isFake random)) := by
  rw [result_after_handler eventA worldA random inputA resultDiv hinA hresA,
    result_after_handler eventB worldB random inputB resultDiv hinB hresB]
  refine ⟨rfl, rfl, ?_⟩
  show some (serialize (parseHTML (template (isFake random)))) = _
  rw [serialize_parseHTML_template _ (isFake_cases random)]

/-- Witness for C4: the empty input against a headline, same draw. -/
theorem result_independent_of_input_witness :
    getElementById
        (handler ⟨false⟩ (samplePage "" "old") (3 / 4)).world.document "result"
      = getElementById
        (handler ⟨false⟩ (samplePage "Breaking: stocks rise" "old") (3 / 4)).world.document
        "result" ∧
    getElementById
        (handler ⟨false⟩ (samplePage "" "old") (3 / 4)).world.document "result"
      = some { (⟨⟨"div", some "result", none⟩, .text "old" .nil⟩ : Element) with
          children := parseHTML (template (isFake (3 / 4))) } ∧
    (getElementById
        (handler ⟨false⟩ (samplePage "" "old") (3 / 4)).world.document "result").map
        Element.innerHTML
      = some (template (isFake (3 / 4))) :=
  result_independent_of_input ⟨false⟩ ⟨false⟩ (samplePage "" "old")
    (samplePage "Breaking: stocks rise" "old") (3 / 4)
    ⟨⟨"input", some "newsInput", some ""⟩, .nil⟩
    ⟨⟨"input", some "newsInput", some "Breaking: stocks rise"⟩, .nil⟩
    ⟨⟨"div", some "result", none⟩, .text "old" .nil⟩
    (by decide) (by decide) (by decide) (by decide)

/-- C5, as stated, fails for a generator of 53 random bits, whose draws are
the `2 ^ 53` numbers `k / 2 ^ 53`: only `2 ^ 52 - 1` of them are greater than
one half while `2 ^ 52 + 1` are not, so neither label has probability exactly
one half and the two probabilities differ. -/
theorem label_probability_not_half :
    (drawsGiving 53 "Fake News").card = 2 ^ 52 - 1 ∧
    (drawsGiving 53 "Real News").card = 2 ^ 52 + 1 ∧
    probability 53 "Fake News" ≠ 1 / 2 ∧
    probability 53 "Real News" ≠ 1 / 2 ∧
    probability 53 "Fake News" ≠ probability 53 "Real News" := by
  refine ⟨card_drawsGiving_fake 52, card_drawsGiving_real 52, ?_, ?_, ?_⟩
  · rw [probability_fake 52]
    norm_num
  · rw [probability_real 52]
    norm_num
  · rw [probability_fake 52, probability_real 52]
    norm_num

/-- C5, amended: when the draw is uniform over the `2 ^ bits` equally spaced
values `k / 2 ^ bits` of `[0, 1)`, with at least one bit, `Fake News` has
probability `1/2 - 1/2 ^ bits` and `Real News` has probability
`1/2 + 1/2 ^ bits`: two more draws give `Real News` than `Fake News`, since the
draw one half itself gives `Real News`. -/
theorem label_probability (bits : ℕ) (h : 1 ≤ bits) :
    probability bits "Fake News" = 1 / 2 - 1 / 2 ^ bits ∧
    probability bits "Real News" = 1 / 2 + 1 / 2 ^ bits ∧
    (drawsGiving bits "Fake News").card + 2 = (drawsGiving bits "Real News").card ∧
    isFake (drawOf bits (2 ^ (bits - 1))) = "Real News" := by
  obtain ⟨n, rfl⟩ : ∃ n, bits = n + 1 := ⟨bits - 1, by omega⟩
  have hpos : 1 ≤ 2 ^ n := Nat.one_le_two_pow
  refine ⟨probability_fake n, probability_real n, ?_, ?_⟩
  · rw [card_drawsGiving_fake, card_drawsGiving_real]
    omega
  · rw [Nat.add_sub_cancel]
    exact (isFake_drawOf_real n (2 ^ n)).2 (le_refl _)

/-- Witness for C5, amended: the generator of 53 random bits. -/
theorem label_probability_witness :
    probability 53 "Fake News" = 1 / 2 - 1 / 2 ^ 53 ∧
    probability 53 "Real News" = 1 / 2 + 1 / 2 ^ 53 ∧
    (drawsGiving 53 "Fake News").card + 2 = (drawsGiving 53 "Real News").card ∧
    isFake (drawOf 53 (2 ^ (53 - 1))) = "Real News" :=
  label_probability 53 (by decide)

/-- C6: the label is not constant. On any page with both elements, whatever the
text field holds, some draw of `[0, 1)` makes the result element display
`The news is likely: Fake News` and some draw of `[0, 1)` makes it display
`The news is likely: Real News`, and the two displays differ. -/
theorem both_labels_occur (event : Event) (world : World)
    (newsInput resultDiv : Element)
    (hin : getElementById world.document "newsInput" = some newsInput)
    (hres : getElementById world.document "result" = some resultDiv) :
    ∃ fake real : ℚ, (0 ≤ fake ∧ fake < 1) ∧ (0 ≤ real ∧ real < 1) ∧
      ∃ shownFake shownReal : Element,
        getElementById (handler event world fake).world.document "result" = some shownFake ∧
        getElementById (handler event world real).world.document "result" = some shownReal ∧
        shownFake.innerHTML = "<p>The news is likely: <strong>Fake News</strong></p>" ∧
        textContent shownFake.innerHTML = "The news is likely: Fake News" ∧
        shownReal.innerHTML = "<p>The news is likely: <strong>Real News</strong></p>" ∧
        textContent shownReal.innerHTML = "The news is likely: Real News" ∧
        textContent shownFake.innerHTML ≠ textContent shownReal.innerHTML := by
  have hf := result_after_handler event world (3 / 4) newsInput resultDiv hin hres
  have hr := result_after_handler event world (1 / 4) newsInput resultDiv hin hres
  rw [isFake_gt (3 / 4) (by norm_num)] at hf
  rw [isFake_le (1 / 4) (by norm_num)] at hr
  have mf : serialize (parseHTML (template "Fake News"))
      = "<p>The news is likely: <strong>Fake News</strong></p>" := by decide
  have mr : serialize (parseHTML (template "Real News"))
      = "<p>The news is likely: <strong>Real News</strong></p>" := by decide
  have tf : textContent (serialize (parseHTML (template "Fake News")))
      = "The news is likely: Fake News" := by decide
  have tr : textContent (serialize (parseHTML (template "Real News")))
      = "The news is likely: Real News" := by decide
  have ne : textContent (serialize (parseHTML (template "Fake News")))
      ≠ textContent (serialize (parseHTML (template "Real News"))) := by decide
  exact ⟨3 / 4, 1 / 4, ⟨by norm_num, by norm_num⟩, ⟨by norm_num, by norm_num⟩,
    _, _, hf, hr, mf, tf, mr, tr, ne⟩

/-- Witness for C6: a page whose text field holds a fixed headline. -/
theorem both_labels_occur_witness :
    ∃ fake real : ℚ, (0 ≤ fake ∧ fake < 1) ∧ (0 ≤ real ∧ real < 1) ∧
      ∃ shownFake shownReal : Element,
        getElementById
            (handler ⟨false⟩ (samplePage "Breaking: stocks rise" "") fake).world.document
            "result" = some shownFake ∧
        getElementById
            (handler ⟨false⟩ (samplePage "Breaking: stocks rise" "") real).world.document
            "result" = some shownReal ∧
        shownFake.innerHTML = "<p>The news is likely: <strong>Fake News</strong></p>" ∧
        textContent shownFake.innerHTML = "The news is likely: Fake News" ∧
        shownReal.innerHTML = "<p>The news is likely: <strong>Real News</strong></p>" ∧
        textContent shownReal.innerHTML = "The news is likely: Real News" ∧
        textContent shownFake.innerHTML ≠ textContent shownReal.innerHTML :=
  both_labels_occur ⟨false⟩ (samplePage "Breaking: stocks rise" "")
    ⟨⟨"input", some "newsInput", some "Breaking: stocks rise"⟩, .nil⟩
    ⟨⟨"div", some "result", none⟩, .text "" .nil⟩ (by decide) (by decide)

/-- C7, as stated, fails on a page whose text input lies inside the result
element: before the run the page has a text field with the value `a`, after
the run the page has no text field, the message having taken its place. -/
theorem text_field_replaced :
    (getElementById (nestedPage "a").document "newsInput").map Element.value
      = some (some "a") ∧
    (handler ⟨false⟩ (nestedPage "a") (3 / 4)).completion = .normal ∧
    (getElementById (handler ⟨false⟩ (nestedPage "a") (3 / 4)).world.document
        "newsInput").map Element.value
      = none := by
  have h := handler_of_elements ⟨false⟩ (nestedPage "a") (3 / 4)
    ⟨⟨"input", some "newsInput", some "a"⟩, .nil⟩
    ⟨⟨"div", some "result", none⟩, .element ⟨"input", some "newsInput", some "a"⟩ .nil .nil⟩
    (by decide) (by decide)
  rw [isFake_gt (3 / 4) (by norm_num)] at h
  rw [h]
  decide

/-- C7, amended: besides cancelling the event's default action the listener
changes only the content of the result element, the first element with the id
`result`: outside that content the page after the run is the page before it,
node for node. So when the result element holds no text input, the text field the
page has after the run is the one it had before, with the same value. The
console, the storage area and the network are untouched: nothing is logged,
stored or sent. -/
theorem handler_frame (event : Event) (world : World) (random : ℚ) :
    (handler event world random).event = preventDefault event ∧
    sameOutside world.document (handler event world random).world.document "result" = true ∧
    ((∀ resultDiv, getElementById world.document "result" = some resultDiv →
        getElementById resultDiv.children "newsInput" = none) →
      (getElementById (handler event world random).world.document "newsInput").map
          Element.attrs
        = (getElementById world.document "newsInput").map Element.attrs ∧
      (getElementById (handler event world random).world.document "newsInput").map
          Element.value
        = (getElementById world.document "newsInput").map Element.value) ∧
    (handler event world random).world.console = world.console ∧
    (handler event world random).world.storage = world.storage ∧
    (handler event world random).world.network = world.network := by
  have hev := handler_event event world random
  rcases handler_world_cases event world random with h | h
  · rw [h]
    exact ⟨hev, sameOutside_self _ _, fun _ => ⟨rfl, rfl⟩, rfl, rfl, rfl⟩
  · rw [h]
    refine ⟨hev, sameOutside_replaceChildren _ _ _, ?_, rfl, rfl, rfl⟩
    intro hout
    have ha := getElementById_replaceChildren_other world.document "result" "newsInput"
      (parseHTML (template (isFake random))) (by decide)
      (parseHTML_template_no_input _ (isFake_cases random)) hout
    refine ⟨ha, ?_⟩
    have hv := congrArg (Option.map Attrs.value) ha
    simpa [Option.map_map, Function.comp_def, Element.value] using hv

/-- Witness for C7, amended: a page with a wrapper around the result element
and a second element with the id `result`, neither of which changes. -/
theorem handler_frame_witness :
    (handler ⟨false⟩ (crowdedPage "a") (3 / 4)).event = preventDefault ⟨false⟩ ∧
    sameOutside (crowdedPage "a").document
        (handler ⟨false⟩ (crowdedPage "a") (3 / 4)).world.document "result" = true ∧
    (getElementById (handler ⟨false⟩ (crowdedPage "a") (3 / 4)).world.document
        "newsInput").map Element.value
      = (getElementById (crowdedPage "a").document "newsInput").map Element.value ∧
    (handler ⟨false⟩ (crowdedPage "a") (3 / 4)).world.console = (crowdedPage "a").console ∧
    (handler ⟨false⟩ (crowdedPage "a") (3 / 4)).world.storage = (crowdedPage "a").storage ∧
    (handler ⟨false⟩ (crowdedPage "a") (3 / 4)).world.network = (crowdedPage "a").network :=
  have h := handler_frame ⟨false⟩ (crowdedPage "a") (3 / 4)
  have hres : getElementById (crowdedPage "a").document "result"
      = some ⟨⟨"div", some "result", none⟩, .text "one" .nil⟩ := by decide
  ⟨h.1, h.2.1,
    (h.2.2.1 (fun resultDiv hr => by
      rw [hres] at hr
      rw [← Option.some.inj hr]
      decide)).2,
    h.2.2.2⟩

/-- C8: missing elements are unhandled. If the text input or the result element
is absent the listener ends by throwing a `TypeError` that nothing catches, and
the page, the result element included, the console, the storage area and the
network are as before: no recovery, no message. If both exist the listener
returns normally, whatever the text field holds. -/
theorem missing_elements_fault (event : Event) (world : World) (random : ℚ) :
    ((getElementById world.document "newsInput" = none ∨
        getElementById world.document "result" = none) →
      (handler event world random).completion = .throw .typeError ∧
      (handler event world random).world = world) ∧
    (∀ newsInput resultDiv : Element,
      getElementById world.document "newsInput" = some newsInput →
      getElementById world.document "result" = some resultDiv →
      (handler event world random).completion = .normal) := by
  constructor
  · rintro (h | h)
    · rw [handler_of_no_input event world random h]
      exact ⟨rfl, rfl⟩
    · rw [handler_of_no_result event world random h]
      exact ⟨rfl, rfl⟩
  · intro newsInput resultDiv hin hres
    rw [handler_of_elements event world random newsInput resultDiv hin hres]

/-- Witness for C8: a page without the text input, a page without the result
element, and a page with both whose text field is empty. -/
theorem missing_elements_fault_witness :
    ((handler ⟨false⟩
          ⟨.element ⟨"div", some "result", none⟩ (.text "old" .nil) .nil, [], [], []⟩
          (3 / 4)).completion
        = .throw .typeError ∧
      (handler ⟨false⟩
          ⟨.element ⟨"div", some "result", none⟩ (.text "old" .nil) .nil, [], [], []⟩
          (3 / 4)).world
        = ⟨.element ⟨"div", some "result", none⟩ (.text "old" .nil) .nil, [], [], []⟩) ∧
    ((handler ⟨false⟩
          ⟨.element ⟨"input", some "newsInput", some "a"⟩ .nil .nil, [], [], []⟩
          (3 / 4)).completion
        = .throw .typeError ∧
      (handler ⟨false⟩
          ⟨.element ⟨"input", some "newsInput", some "a"⟩ .nil .nil, [], [], []⟩
          (3 / 4)).world
        = ⟨.element ⟨"input", some "newsInput", some "a"⟩ .nil .nil, [], [], []⟩) ∧
    (handler ⟨false⟩ (samplePage "" "old") (3 / 4)).completion = .normal :=
  ⟨(missing_elements_fault ⟨false⟩
        ⟨.element ⟨"div", some "result", none⟩ (.text "old" .nil) .nil, [], [], []⟩
        (3 / 4)).1 (Or.inl (by decide)),
    (missing_elements_fault ⟨false⟩
        ⟨.element ⟨"input", some "newsInput", some "a"⟩ .nil .nil, [], [], []⟩
        (3 / 4)).1 (Or.inr (by decide)),
    (missing_elements_fault ⟨false⟩ (samplePage "" "old") (3 / 4)).2
      ⟨⟨"input", some "newsInput", some ""⟩, .nil⟩
      ⟨⟨"div", some "result", none⟩, .text "old" .nil⟩ (by decide) (by decide)⟩

/-- C9: the prediction is the comparison `draw > 0.5`. For every draw (in
particular every draw of `[0, 1)`) the label is `Fake News` exactly when the
draw is greater than one half and `Real News` exactly when it is not, and the
draw one half itself gives `Real News`. -/
theorem isFake_spec (random : ℚ) :
    (isFake random = "Fake News" ↔ random > 1 / 2) ∧
    (isFake random = "Real News" ↔ ¬ random > 1 / 2) ∧
    isFake (1 / 2) = "Real News" := by
  refine ⟨?_, ?_, isFake_le _ (by norm_num)⟩
  · by_cases h : random > 1 / 2
    · exact ⟨fun _ => h, fun _ => isFake_gt random h⟩
    · exact ⟨fun c => absurd (c.symm.trans (isFake_le random h)) (by decide),
        fun c => absurd c h⟩
  · by_cases h : random > 1 / 2
    · exact ⟨fun c => absurd ((isFake_gt random h).symm.trans c) (by decide),
        fun c => absurd h c⟩
    · exact ⟨fun _ => h, fun _ => isFake_le random h⟩

/-- C10: on a page with both elements, whatever the text field holds and
whatever the draw, the markup the listener assigns to the result element is the
message in a paragraph with the label in a strong element. It is one of exactly
two strings and it is not the bare text of the message. -/
theorem innerHTML_after_submit (event : Event) (world : World) (random : ℚ)
    (newsInput resultDiv : Element)
    (hin : getElementById world.document "newsInput" = some newsInput)
    (hres : getElementById world.document "result" = some resultDiv) :
    ∃ shown,
      getElementById (handler event world random).world.document "result" = some shown ∧
      shown.innerHTML = "<p>The news is likely: <strong>" ++ isFake random ++ "</strong></p>" ∧
      (shown.innerHTML = "<p>The news is likely: <strong>Fake News</strong></p>" ∨
        shown.innerHTML = "<p>The news is likely: <strong>Real News</strong></p>") ∧
      shown.innerHTML ≠ "The news is likely: " ++ isFake random := by
  have hs : serialize (parseHTML (template (isFake random))) = template (isFake random) :=
    serialize_parseHTML_template _ (isFake_cases random)
  refine ⟨_, result_after_handler event world random newsInput resultDiv hin hres, hs, ?_, ?_⟩
  · rcases isFake_cases random with h | h
    · left
      show serialize (parseHTML (template (isFake random))) = _
      rw [hs, h]
      decide
    · right
      show serialize (parseHTML (template (isFake random))) = _
      rw [hs, h]
      decide
  · show serialize (parseHTML (template (isFake random))) ≠ _
    rw [hs]
    exact template_ne_text _ (isFake_cases random)

/-- Witness for C10: the empty input and the draw one half. -/
theorem innerHTML_after_submit_witness :
    ∃ shown,
      getElementById (handler ⟨false⟩ (samplePage "" "old") (1 / 2)).world.document "result"
        = some shown ∧
      shown.innerHTML
        = "<p>The news is likely: <strong>" ++ isFake (1 / 2) ++ "</strong></p>" ∧
      (shown.innerHTML = "<p>The news is likely: <strong>Fake News</strong></p>" ∨
        shown.innerHTML = "<p>The news is likely: <strong>Real News</strong></p>") ∧
      shown.innerHTML ≠ "The news is likely: " ++ isFake (1 / 2) :=
  innerHTML_after_submit ⟨false⟩ (samplePage "" "old") (1 / 2)
    ⟨⟨"input", some "newsInput", some ""⟩, .nil⟩
    ⟨⟨"div", some "result", none⟩, .text "old" .nil⟩ (by decide) (by decide)

end NewsForm
